import Mathlib

/-!
Shallow embedding of `skills/mcp-builder/scripts/evaluation.py`: the MCP
server evaluation harness.  Python JSON values are modelled by `PyVal`,
exceptions by `PyExc`, and each probe of `MCPEvaluator` becomes a total Lean
function from an abstract transport outcome to the list of
`EvaluationResult`s it appends.
-/

namespace MCPEval

/-- Model of a Python value as produced by `json.loads` (no floats occur in
any protocol message this program constructs or the claims exercise). -/
inductive PyVal where
  | none
  | bool (b : Bool)
  | int (n : Int)
  | str (s : String)
  | list (xs : List PyVal)
  | dict (fields : List (String × PyVal))

/-- `type(v).__name__`, used in Python error messages. -/
def PyVal.typeName : PyVal → String
  | .none => "NoneType"
  | .bool _ => "bool"
  | .int _ => "int"
  | .str _ => "str"
  | .list _ => "list"
  | .dict _ => "dict"

/-- Python truthiness (`bool(v)`). -/
def PyVal.truthy : PyVal → Bool
  | .none => false
  | .bool b => b
  | .int n => n != 0
  | .str s => s ≠ ""
  | .list xs => !xs.isEmpty
  | .dict fs => !fs.isEmpty

/-- `v is None`. -/
def PyVal.isNone : PyVal → Bool
  | .none => true
  | _ => false

/-- Numeric value of a Python bool (`True == 1`, `False == 0`). -/
def PyVal.boolAsInt (b : Bool) : Int := if b then 1 else 0

mutual

/-- Python `==` on values: `bool` and `int` compare numerically; containers
compare elementwise; values of unrelated types are unequal. -/
def pyEq : PyVal → PyVal → Bool
  | .none, .none => true
  | .bool a, .bool b => a = b
  | .bool a, .int n => PyVal.boolAsInt a = n
  | .int m, .bool b => m = PyVal.boolAsInt b
  | .int m, .int n => m = n
  | .str a, .str b => a = b
  | .list xs, .list ys => pyEqList xs ys
  | .dict fs, .dict gs => pyEqFields fs gs
  | _, _ => false

/-- Elementwise Python `==` on lists. -/
def pyEqList : List PyVal → List PyVal → Bool
  | [], [] => true
  | x :: xs, y :: ys => pyEq x y && pyEqList xs ys
  | _, _ => false

/-- Python `==` on (ordered) dict entries. -/
def pyEqFields : List (String × PyVal) → List (String × PyVal) → Bool
  | [], [] => true
  | (k, v) :: fs, (l, w) :: gs => (k = l : Bool) && pyEq v w && pyEqFields fs gs
  | _, _ => false

end

mutual

/-- Python repr of a value (used by str() on non-strings, e.g. in f-strings). -/
def PyVal.reprStr : PyVal → String
  | .none => "None"
  | .bool true => "True"
  | .bool false => "False"
  | .int n => toString n
  | .str s => "'" ++ s ++ "'"
  | .list xs => "[" ++ reprListBody xs ++ "]"
  | .dict fs => "\x7b" ++ reprFieldsBody fs ++ "\x7d"

/-- Comma-separated reprs of list elements. -/
def reprListBody : List PyVal → String
  | [] => ""
  | [x] => PyVal.reprStr x
  | x :: xs => PyVal.reprStr x ++ ", " ++ reprListBody xs

/-- Comma-separated reprs of dict entries. -/
def reprFieldsBody : List (String × PyVal) → String
  | [] => ""
  | [(k, v)] => "'" ++ k ++ "': " ++ PyVal.reprStr v
  | (k, v) :: fs => "'" ++ k ++ "': " ++ PyVal.reprStr v ++ ", " ++ reprFieldsBody fs

end

/-- Python str() of a value, as interpolated by f-strings. -/
def PyVal.pyStr : PyVal → String
  | .str s => s
  | v => v.reprStr

/-- Exceptions this program can raise and catch.  The except clauses of the
probes catch every constructor (all model Exception subclasses);
timeoutError models asyncio.TimeoutError raised by asyncio.wait_for. -/
inductive PyExc where
  | timeoutError
  | attributeError (typeName attr : String)
  | typeError (msg : String)
  | keyError (key : String)
  | launchFailure (msg : String)
deriving DecidableEq, Repr

/-- Python str(e), as interpolated into probe failure messages
(str of an asyncio.TimeoutError is the empty string). -/
def PyExc.str : PyExc → String
  | .timeoutError => ""
  | .attributeError ty attr => "'" ++ ty ++ "' object has no attribute '" ++ attr ++ "'"
  | .typeError msg => msg
  | .keyError k => "'" ++ k ++ "'"
  | .launchFailure msg => msg

/-- Lookup of a key among dict fields (parsed JSON keeps the last duplicate
key only, so fields are unique; first occurrence is the occurrence). -/
def lookupField (fs : List (String × PyVal)) (k : String) : Option PyVal :=
  (fs.find? (fun p => p.1 == k)).map (fun p => p.2)

/-- Python v.get(k): None when the key is absent; AttributeError when v is
not a dict. -/
def pyGet : PyVal → String → Except PyExc PyVal
  | .dict fs, k => .ok ((lookupField fs k).getD .none)
  | v, _ => .error (.attributeError v.typeName "get")

/-- Python v.get(k, default). -/
def pyGetD : PyVal → String → PyVal → Except PyExc PyVal
  | .dict fs, k, d => .ok ((lookupField fs k).getD d)
  | v, _, _ => .error (.attributeError v.typeName "get")

/-- Substring test, modelling Python needle in haystack on strings. -/
def strContains (hay needle : String) : Bool :=
  needle == "" || (hay.splitOn needle).length ≥ 2

/-- Python k in v for a string k: key test on dicts, substring on strings,
membership on lists, TypeError otherwise. -/
def pyContains (k : String) : PyVal → Except PyExc Bool
  | .dict fs => .ok (fs.any (fun p => p.1 == k))
  | .str s => .ok (strContains s k)
  | .list xs => .ok (xs.any (fun x => pyEq x (.str k)))
  | v => .error (.typeError ("argument of type '" ++ v.typeName ++ "' is not iterable"))

/-- Python v[k] for a string key k. -/
def pySubscript : PyVal → String → Except PyExc PyVal
  | .dict fs, k =>
      match lookupField fs k with
      | some v => .ok v
      | Option.none => .error (.keyError k)
  | .str _, _ => .error (.typeError "string indices must be integers")
  | .list _, _ => .error (.typeError "list indices must be integers or slices, not str")
  | v, _ => .error (.typeError ("'" ++ v.typeName ++ "' object is not subscriptable"))

/-- Python len(v). -/
def pyLen : PyVal → Except PyExc Nat
  | .str s => .ok s.length
  | .list xs => .ok xs.length
  | .dict fs => .ok fs.length
  | v => .error (.typeError ("object of type '" ++ v.typeName ++ "' has no len()"))

/-- Result of one evaluation check (dataclass EvaluationResult). -/
structure EvaluationResult where
  name : String
  passed : Bool
  message : String
  severity : String
deriving DecidableEq, Repr

/-- One element of stdout.decode().strip().split(newline) together with the
outcome of json.loads on it: empty covers a falsy line skipped by the
if-line guard, parseFailure a line on which json.loads raises
json.JSONDecodeError, value a line parsed to the given Python value. -/
inductive ParsedLine where
  | empty
  | parseFailure (raw : String)
  | value (v : PyVal)

/-- Response-parsing loop of MCPEvaluator._send_request: scan lines in
stream order; skip empty and unparseable lines; on a parsed value call
response.get, so a non-dict value raises AttributeError; return the result
member of the first response whose id equals 2, or None if no line matches. -/
def correlateLoop : List ParsedLine → Except PyExc PyVal
  | [] => .ok .none
  | ParsedLine.empty :: rest => correlateLoop rest
  | ParsedLine.parseFailure _ :: rest => correlateLoop rest
  | ParsedLine.value v :: rest =>
      match pyGet v "id" with
      | .error e => .error e
      | .ok idv =>
          if pyEq idv (.int 2) then
            match pyGet v "result" with
            | .error e => .error e
            | .ok r => .ok r
          else correlateLoop rest

/-- Outcome of one MCPEvaluator._send_request transport exchange: the spawn
or communicate step raised, the 10-second asyncio.wait_for expired, or
communicate returned and stdout decoded/split into the given lines. -/
inductive SendOutcome where
  | raised (e : PyExc)
  | timedOut
  | completed (lines : List ParsedLine)

/-- Value or exception produced by MCPEvaluator._send_request for a given
transport outcome: a timeout surfaces as asyncio.TimeoutError to the
caller, otherwise the correlator loop runs on the stdout lines. -/
def sendRequest : SendOutcome → Except PyExc PyVal
  | .raised e => .error e
  | .timedOut => .error .timeoutError
  | .completed lines => correlateLoop lines

/-- Outcome of the process exchange of MCPEvaluator._check_server_starts:
spawn or communicate raised, the wait timed out, or the process finished
with the given returncode and decoded stdout/stderr. -/
inductive StartupOutcome where
  | raised (e : PyExc)
  | timedOut
  | completed (returncode : Int) (stdout stderr : String)

/-- Results appended by MCPEvaluator._check_server_starts. -/
def checkServerStarts : StartupOutcome → List EvaluationResult
  | .completed rc out err =>
      if rc == 0 || out ≠ "" then
        [⟨"Server Startup", true, "Server starts successfully", "info"⟩]
      else
        [⟨"Server Startup", false, "Server failed to start: " ++ err, "error"⟩]
  | .timedOut =>
      [⟨"Server Startup", false, "Server startup timed out", "error"⟩]
  | .raised e =>
      [⟨"Server Startup", false, "Error starting server: " ++ e.str, "error"⟩]

/-- Try-block of MCPEvaluator._check_tools_list; an error value is the
exception the except clause catches. -/
def toolsListBody (o : SendOutcome) : Except PyExc (List EvaluationResult) :=
  match sendRequest o with
  | .error e => .error e
  | .ok result =>
      match (if result.truthy then pyContains "tools" result else .ok false) with
      | .error e => .error e
      | .ok false =>
          .ok [⟨"Tools List", false, "Invalid tools/list response", "error"⟩]
      | .ok true =>
          match pySubscript result "tools" with
          | .error e => .error e
          | .ok tools =>
              match pyLen tools with
              | .error e => .error e
              | .ok n =>
                  .ok (⟨"Tools List", true, "Found " ++ toString n ++ " tool(s)", "info"⟩ ::
                    (if n == 0 then
                      [⟨"Tools Count", false, "Server has no tools defined", "warning"⟩]
                    else []))

/-- Results appended by MCPEvaluator._check_tools_list. -/
def checkToolsList (o : SendOutcome) : List EvaluationResult :=
  match toolsListBody o with
  | .ok rs => rs
  | .error e => [⟨"Tools List", false, "Error listing tools: " ++ e.str, "error"⟩]

/-- Condition of the description check of MCPEvaluator._check_tool_schemas,
the short-circuit expression testing description not in tool or an
untruthy tool["description"]. -/
def missingDescription (tool : PyVal) : Except PyExc Bool :=
  match pyContains "description" tool with
  | .error e => .error e
  | .ok false => .ok true
  | .ok true =>
      match pySubscript tool "description" with
      | .error e => .error e
      | .ok d => .ok (!d.truthy)

/-- Results of the inputSchema block of MCPEvaluator._check_tool_schemas
for one tool: a warning when a present schema's type member is not the
string object, an info result when the schema is absent entirely. -/
def schemaFieldResults (tool : PyVal) (name : String) :
    Except PyExc (List EvaluationResult) :=
  match pyContains "inputSchema" tool with
  | .error e => .error e
  | .ok true =>
      match pySubscript tool "inputSchema" with
      | .error e => .error e
      | .ok schema =>
          match pyGet schema "type" with
          | .error e => .error e
          | .ok ty =>
              .ok (if !pyEq ty (.str "object") then
                [⟨"Tool '" ++ name ++ "' Schema", false,
                  "inputSchema type should be 'object'", "warning"⟩]
              else [])
  | .ok false =>
      .ok [⟨"Tool '" ++ name ++ "' Schema", true,
        "Tool has valid schema (no input required)", "info"⟩]

/-- Loop body of MCPEvaluator._check_tool_schemas for one tool entry:
the results appended for this tool, paired with the exception (if any)
that aborts the loop after those appends. -/
def schemaForTool (tool : PyVal) : List EvaluationResult × Option PyExc :=
  match pyContains "name" tool with
  | .error e => ([], some e)
  | .ok false => ([⟨"Tool Schema", false, "Tool missing 'name' field", "error"⟩], Option.none)
  | .ok true =>
      match pySubscript tool "name" with
      | .error e => ([], some e)
      | .ok nameVal =>
          match missingDescription tool with
          | .error e => ([], some e)
          | .ok missingDesc =>
              let descResults : List EvaluationResult :=
                if missingDesc then
                  [⟨"Tool '" ++ nameVal.pyStr ++ "' Description", false,
                    "Tool missing description", "warning"⟩]
                else []
              match schemaFieldResults tool nameVal.pyStr with
              | .error e => (descResults, some e)
              | .ok schemaResults => (descResults ++ schemaResults, Option.none)

/-- For-loop of MCPEvaluator._check_tool_schemas over the tool entries;
appends accumulate across iterations and an exception aborts the rest. -/
def schemasLoop : List PyVal → List EvaluationResult × Option PyExc
  | [] => ([], Option.none)
  | t :: ts =>
      match schemaForTool t with
      | (rs, some e) => (rs, some e)
      | (rs, Option.none) =>
          match schemasLoop ts with
          | (rest, e) => (rs ++ rest, e)

/-- Python iteration of a value, as in the for-loop over result["tools"]. -/
def pyIter : PyVal → Except PyExc (List PyVal)
  | .list xs => .ok xs
  | .dict fs => .ok (fs.map (fun p => .str p.1))
  | .str s => .ok (s.toList.map (fun c => .str (String.singleton c)))
  | v => .error (.typeError ("'" ++ v.typeName ++ "' object is not iterable"))

/-- Try-block of MCPEvaluator._check_tool_schemas: results appended before
any exception, plus the pending exception (the source appends nothing when
the response lacks a tools field: the if has no else branch). -/
def toolSchemasBody (o : SendOutcome) : List EvaluationResult × Option PyExc :=
  match sendRequest o with
  | .error e => ([], some e)
  | .ok result =>
      match (if result.truthy then pyContains "tools" result else .ok false) with
      | .error e => ([], some e)
      | .ok false => ([], Option.none)
      | .ok true =>
          match pySubscript result "tools" with
          | .error e => ([], some e)
          | .ok tools =>
              match pyIter tools with
              | .error e => ([], some e)
              | .ok items => schemasLoop items

/-- Results appended by MCPEvaluator._check_tool_schemas. -/
def checkToolSchemas (o : SendOutcome) : List EvaluationResult :=
  match toolSchemasBody o with
  | (rs, Option.none) => rs
  | (rs, some e) =>
      rs ++ [⟨"Tool Schemas", false, "Error checking schemas: " ++ e.str, "error"⟩]

/-- Try-block of MCPEvaluator._check_resources_list (the source appends
nothing when the returned result is None: the if has no else branch). -/
def resourcesBody (o : SendOutcome) : Except PyExc (List EvaluationResult) :=
  match sendRequest o with
  | .error e => .error e
  | .ok result =>
      if result.isNone then .ok []
      else
        match pyGetD result "resources" (.list []) with
        | .error e => .error e
        | .ok resources =>
            match pyLen resources with
            | .error e => .error e
            | .ok n =>
                .ok [⟨"Resources List", true,
                  "Found " ++ toString n ++ " resource(s)", "info"⟩]

/-- Results appended by MCPEvaluator._check_resources_list. -/
def checkResourcesList (o : SendOutcome) : List EvaluationResult :=
  match resourcesBody o with
  | .ok rs => rs
  | .error _ => [⟨"Resources List", true, "Resources not implemented (optional)", "info"⟩]

/-- Transport outcomes of the four probe exchanges of one run; each probe
spawns its own fresh process, so the outcomes are independent. -/
structure ServerBehaviour where
  startup : StartupOutcome
  toolsList : SendOutcome
  toolSchemas : SendOutcome
  resourcesList : SendOutcome

/-- MCPEvaluator.evaluate: reset the result list, then run the four probes
in order, each appending to the shared list. -/
def evaluate (b : ServerBehaviour) : List EvaluationResult :=
  let results : List EvaluationResult := []
  let results := results ++ checkServerStarts b.startup
  let results := results ++ checkToolsList b.toolsList
  let results := results ++ checkToolSchemas b.toolSchemas
  let results := results ++ checkResourcesList b.resourcesList
  results

/-- Errors bucket of MCPEvaluator.print_report. -/
def errorsBucket (rs : List EvaluationResult) : List EvaluationResult :=
  rs.filter (fun r => r.severity == "error" && !r.passed)

/-- Warnings bucket of MCPEvaluator.print_report. -/
def warningsBucket (rs : List EvaluationResult) : List EvaluationResult :=
  rs.filter (fun r => r.severity == "warning" && !r.passed)

/-- Passed bucket of MCPEvaluator.print_report. -/
def passedBucket (rs : List EvaluationResult) : List EvaluationResult :=
  rs.filter (fun r => r.passed)

/-- Return value of MCPEvaluator.print_report: len(errors) == 0. -/
def reportSuccess (rs : List EvaluationResult) : Bool :=
  (errorsBucket rs).length == 0

/-- Exit code chosen by main: sys.exit(0 if success else 1). -/
def exitCode (rs : List EvaluationResult) : Nat :=
  if reportSuccess rs then 0 else 1

/-- Observable process-lifecycle actions of a probe exchange.  The kill
effect would model process.kill() or process.terminate(); the source
contains no such call. -/
inductive Effect where
  | spawn
  | writeStdin
  | kill
  | appendResult (r : EvaluationResult)
deriving DecidableEq, Repr

/-- Lifecycle effects of MCPEvaluator._check_server_starts in program
order: spawn, write the initialize request (unless spawning raised), then
the appends of the branch taken.  asyncio.wait_for merely cancels the
communicate task on timeout; no branch invokes kill or terminate. -/
def serverStartsEffects (o : StartupOutcome) : List Effect :=
  (match o with
   | .raised _ => [Effect.spawn]
   | _ => [Effect.spawn, Effect.writeStdin]) ++
  (checkServerStarts o).map Effect.appendResult

/-- Lifecycle effects of MCPEvaluator._send_request in program order:
spawn, write both requests (unless spawning raised); a timeout cancels the
communicate task and re-raises without any kill or terminate call. -/
def sendRequestEffects : SendOutcome → List Effect
  | .raised _ => [Effect.spawn]
  | .timedOut => [Effect.spawn, Effect.writeStdin]
  | .completed _ => [Effect.spawn, Effect.writeStdin]

/-- Invariant every result built by the probes satisfies: it passed exactly
when its severity is info, and its severity is one of the three levels. -/
def resultInv (r : EvaluationResult) : Prop :=
  (r.passed = true ↔ r.severity = "info") ∧
  (r.severity = "info" ∨ r.severity = "warning" ∨ r.severity = "error")

/-- Lines on which the correlator's response.get calls cannot raise: every
parsed value is an object; empty and unparseable lines are unconstrained. -/
def objLine : ParsedLine → Bool
  | ParsedLine.value (.dict _) => true
  | ParsedLine.value _ => false
  | _ => true

/-- Reference restatement of the correlator contract on object-only
streams: the result member (None when absent) of the first parsed object
whose id member equals 2, or None when no line matches. -/
def firstMatchResult : List ParsedLine → PyVal
  | [] => .none
  | ParsedLine.value (.dict fs) :: rest =>
      if pyEq ((lookupField fs "id").getD .none) (.int 2) then
        (lookupField fs "result").getD .none
      else firstMatchResult rest
  | _ :: rest => firstMatchResult rest

/-- Sample run behaviour: the server starts cleanly and every later
exchange completes with a blank stdout line, used to exercise the report
bucket partition on a concrete run. -/
def sampleBehaviour : ServerBehaviour :=
  ServerBehaviour.mk (.completed 0 "ok" "") (.completed [ParsedLine.empty])
    (.completed [ParsedLine.empty]) (.completed [ParsedLine.empty])

/-- Startup result appended during the sample behaviour's run. -/
def sampleResult : EvaluationResult :=
  ⟨"Server Startup", true, "Server starts successfully", "info"⟩

theorem resultInv_info (nm msg : String) : resultInv ⟨nm, true, msg, "info"⟩ := by
  constructor <;> simp [resultInv]

theorem resultInv_warning (nm msg : String) : resultInv ⟨nm, false, msg, "warning"⟩ := by
  constructor <;> simp [resultInv]

theorem resultInv_error (nm msg : String) : resultInv ⟨nm, false, msg, "error"⟩ := by
  constructor <;> simp [resultInv]

theorem resultInv_checkServerStarts (o : StartupOutcome) :
    ∀ r ∈ checkServerStarts o, resultInv r := by
  cases o with
  | completed rc out err =>
      simp only [checkServerStarts]
      split <;> simp [List.forall_mem_cons, resultInv_info, resultInv_error]
  | timedOut => simp [checkServerStarts, List.forall_mem_cons, resultInv_error]
  | raised e => simp [checkServerStarts, List.forall_mem_cons, resultInv_error]

theorem resultInv_toolsListBody (o : SendOutcome) (rs : List EvaluationResult)
    (h : toolsListBody o = .ok rs) : ∀ r ∈ rs, resultInv r := by
  unfold toolsListBody at h
  repeat' split at h
  all_goals (try cases h)
  all_goals simp [List.forall_mem_cons, resultInv_info, resultInv_warning, resultInv_error]

theorem resultInv_checkToolsList (o : SendOutcome) :
    ∀ r ∈ checkToolsList o, resultInv r := by
  intro r hr
  unfold checkToolsList at hr
  split at hr
  · rename_i rs heq
    exact resultInv_toolsListBody o rs heq r hr
  · simp at hr; subst hr; exact resultInv_error _ _

theorem resultInv_schemaFieldResults (t : PyVal) (nm : String) (rs : List EvaluationResult)
    (h : schemaFieldResults t nm = .ok rs) : ∀ r ∈ rs, resultInv r := by
  unfold schemaFieldResults at h
  repeat' split at h
  all_goals (try cases h)
  all_goals simp [List.forall_mem_cons, resultInv_info, resultInv_warning]

theorem resultInv_schemaForTool (t : PyVal) :
    ∀ r ∈ (schemaForTool t).1, resultInv r := by
  have key : ∀ res, schemaForTool t = res → ∀ r ∈ res.1, resultInv r := by
    intro res h
    unfold schemaForTool at h
    repeat' split at h
    all_goals (try cases h)
    all_goals simp [List.forall_mem_append, List.forall_mem_cons,
      resultInv_info, resultInv_warning, resultInv_error]
    all_goals exact resultInv_schemaFieldResults _ _ _ (by assumption)
  exact key _ rfl

theorem resultInv_schemasLoop (ts : List PyVal) :
    ∀ r ∈ (schemasLoop ts).1, resultInv r := by
  induction ts with
  | nil => simp [schemasLoop]
  | cons t ts ih =>
      intro r hr
      unfold schemasLoop at hr
      split at hr
      · rename_i rs e heq
        exact resultInv_schemaForTool t r (by rw [heq]; simpa using hr)
      · rename_i rs heq
        split at hr
        rename_i rest e2 heq2
        simp at hr
        rcases hr with hr | hr
        · exact resultInv_schemaForTool t r (by rw [heq]; simpa using hr)
        · exact ih r (by rw [heq2]; simpa using hr)

theorem resultInv_toolSchemasBody (o : SendOutcome) :
    ∀ r ∈ (toolSchemasBody o).1, resultInv r := by
  have key : ∀ res, toolSchemasBody o = res → ∀ r ∈ res.1, resultInv r := by
    intro res h
    unfold toolSchemasBody at h
    repeat' split at h
    all_goals (try cases h)
    all_goals (try simp)
    all_goals exact resultInv_schemasLoop _
  exact key _ rfl

theorem resultInv_checkToolSchemas (o : SendOutcome) :
    ∀ r ∈ checkToolSchemas o, resultInv r := by
  intro r hr
  unfold checkToolSchemas at hr
  split at hr
  · rename_i rs heq
    exact resultInv_toolSchemasBody o r (by rw [heq]; simpa using hr)
  · rename_i rs e heq
    rw [List.mem_append] at hr
    rcases hr with hr | hr
    · exact resultInv_toolSchemasBody o r (by rw [heq]; simpa using hr)
    · simp at hr; subst hr; exact resultInv_error _ _

theorem resultInv_resourcesBody (o : SendOutcome) (rs : List EvaluationResult)
    (h : resourcesBody o = .ok rs) : ∀ r ∈ rs, resultInv r := by
  unfold resourcesBody at h
  repeat' split at h
  all_goals (try cases h)
  all_goals simp [List.forall_mem_cons, resultInv_info]

theorem resultInv_checkResourcesList (o : SendOutcome) :
    ∀ r ∈ checkResourcesList o, resultInv r := by
  intro r hr
  unfold checkResourcesList at hr
  split at hr
  · rename_i rs heq
    exact resultInv_resourcesBody o rs heq r hr
  · simp at hr; subst hr; exact resultInv_info _ _

theorem resultInv_evaluate (b : ServerBehaviour) :
    ∀ r ∈ evaluate b, resultInv r := by
  intro r hr
  simp only [evaluate, List.nil_append, List.append_assoc, List.mem_append] at hr
  rcases hr with hr | hr | hr | hr
  · exact resultInv_checkServerStarts b.startup r hr
  · exact resultInv_checkToolsList b.toolsList r hr
  · exact resultInv_checkToolSchemas b.toolSchemas r hr
  · exact resultInv_checkResourcesList b.resourcesList r hr

theorem exitCode_eq_zero (rs : List EvaluationResult) :
    exitCode rs = 0 ↔ ∀ r ∈ rs, ¬(r.severity = "error" ∧ r.passed = false) := by
  unfold exitCode reportSuccess errorsBucket
  constructor
  · intro h r hr hc
    split at h
    · rename_i hs
      rw [beq_iff_eq, List.length_eq_zero, List.filter_eq_nil_iff] at hs
      exact hs r hr (by simp [hc.1, hc.2])
    · exact absurd h (by decide)
  · intro h
    rw [if_pos]
    rw [beq_iff_eq, List.length_eq_zero, List.filter_eq_nil_iff]
    intro r hr hb
    simp only [Bool.and_eq_true, beq_iff_eq, Bool.not_eq_true'] at hb
    exact h r hr ⟨hb.1, hb.2⟩

theorem correlateLoop_firstMatch (lines : List ParsedLine)
    (h : ∀ l ∈ lines, objLine l = true) :
    correlateLoop lines = .ok (firstMatchResult lines) := by
  induction lines with
  | nil => rfl
  | cons l rest ih =>
      have hrest : ∀ x ∈ rest, objLine x = true := fun x hx => h x (List.mem_cons_of_mem _ hx)
      cases l with
      | empty => simpa [correlateLoop, firstMatchResult] using ih hrest
      | parseFailure s => simpa [correlateLoop, firstMatchResult] using ih hrest
      | value v =>
          have hv : objLine (ParsedLine.value v) = true := h _ (List.mem_cons_self _ _)
          cases v with
          | dict fs =>
              cases hc : pyEq ((lookupField fs "id").getD .none) (.int 2) with
              | true => simp [correlateLoop, firstMatchResult, pyGet, hc]
              | false =>
                  simpa [correlateLoop, firstMatchResult, pyGet, hc] using ih hrest
          | none => exact Bool.noConfusion hv
          | bool b => exact Bool.noConfusion hv
          | int n => exact Bool.noConfusion hv
          | str s => exact Bool.noConfusion hv
          | list xs => exact Bool.noConfusion hv

/-- C1, counterexample: on a stdout line whose parsed object has id 2, the
correlator returns the object's result member, which differs from the
matching parsed object itself, so the loop does not return the parsed JSON
object whose id field equals the target id. -/
theorem correlator_returns_result_member_not_object :
    correlateLoop [ParsedLine.value (.dict [("id", .int 2),
        ("result", .dict [("tools", .list [])])])] =
      .ok (.dict [("tools", .list [])]) ∧
    PyVal.dict [("tools", .list [])] ≠
      PyVal.dict [("id", .int 2), ("result", .dict [("tools", .list [])])] :=
  ⟨rfl, by simp⟩

/-- C1, amended: on a buffer whose parseable lines are all JSON objects,
the correlator returns the result member (None when absent) of the first
parsed object whose id field equals the target id 2, first occurrence
winning in stream order, and None when no line matches. -/
theorem correlator_first_match_result_member (lines : List ParsedLine)
    (h : ∀ l ∈ lines, objLine l = true) :
    correlateLoop lines = .ok (firstMatchResult lines) :=
  correlateLoop_firstMatch lines h

/-- Witness for C1 at a four-line buffer with noise, a non-matching id and
a duplicated id 2 whose first occurrence wins. -/
theorem correlator_first_match_result_member_witness :
    (∀ l ∈ [ParsedLine.parseFailure "noise",
            ParsedLine.value (.dict [("id", .int 1), ("result", .str "init")]),
            ParsedLine.value (.dict [("id", .int 2), ("result", .str "first")]),
            ParsedLine.value (.dict [("id", .int 2), ("result", .str "second")])],
        objLine l = true) ∧
    correlateLoop [ParsedLine.parseFailure "noise",
            ParsedLine.value (.dict [("id", .int 1), ("result", .str "init")]),
            ParsedLine.value (.dict [("id", .int 2), ("result", .str "first")]),
            ParsedLine.value (.dict [("id", .int 2), ("result", .str "second")])] =
      .ok (firstMatchResult [ParsedLine.parseFailure "noise",
            ParsedLine.value (.dict [("id", .int 1), ("result", .str "init")]),
            ParsedLine.value (.dict [("id", .int 2), ("result", .str "first")]),
            ParsedLine.value (.dict [("id", .int 2), ("result", .str "second")])]) :=
  ⟨by intro l hl; fin_cases hl <;> rfl,
   correlator_first_match_result_member _ (by intro l hl; fin_cases hl <;> rfl)⟩

/-- C8, counterexample: a line that is valid JSON but not an object (the
literal 42) makes the correlator raise AttributeError from response.get,
so the loop is not total on every buffer: it returns neither a match nor
the not-found value there. -/
theorem correlator_raises_on_nondict_line :
    correlateLoop [ParsedLine.value (.int 42)] =
      .error (.attributeError "int" "get") ∧
    correlateLoop [ParsedLine.value (.int 42)] ≠ .ok PyVal.none :=
  ⟨rfl, fun hcontra => Except.noConfusion hcontra⟩

/-- C8, amended: the correlator never raises on blank or non-JSON lines;
each such line is skipped independently and scanning continues, and on any
buffer whose parseable lines are all JSON objects the loop is total,
returning a match or the not-found value None. -/
theorem correlator_skip_and_totality :
    (∀ s rest, correlateLoop (ParsedLine.parseFailure s :: rest) = correlateLoop rest) ∧
    (∀ rest, correlateLoop (ParsedLine.empty :: rest) = correlateLoop rest) ∧
    (∀ lines, (∀ l ∈ lines, objLine l = true) → ∃ v, correlateLoop lines = .ok v) :=
  ⟨fun _ _ => rfl, fun _ => rfl,
   fun lines h => ⟨firstMatchResult lines, correlateLoop_firstMatch lines h⟩⟩

/-- Witness for C8 on a buffer with a blank line followed by a matching
object line. -/
theorem correlator_skip_and_totality_witness :
    ∃ v, correlateLoop [ParsedLine.empty, ParsedLine.value (.dict [("id", .int 2)])] = .ok v :=
  correlator_skip_and_totality.2.2 _ (by intro l hl; fin_cases hl <;> rfl)

/-- C2: the process exit code is 0 exactly when no result is both
error-severity and failed, and appending a warning-severity result never
changes the exit code. -/
theorem exit_code_law (rs : List EvaluationResult) :
    (exitCode rs = 0 ↔ ∀ r ∈ rs, ¬(r.severity = "error" ∧ r.passed = false)) ∧
    (∀ w : EvaluationResult, w.severity = "warning" → exitCode (rs ++ [w]) = exitCode rs) := by
  refine ⟨exitCode_eq_zero rs, ?_⟩
  intro w hw
  unfold exitCode reportSuccess errorsBucket
  rw [List.filter_append]
  have hw0 : List.filter (fun r => r.severity == "error" && !r.passed) [w] = [] := by
    simp [hw]
  rw [hw0, List.append_nil]

/-- Witness for C2: appending a concrete warning result to the empty run
leaves the exit code unchanged. -/
theorem exit_code_law_witness :
    exitCode ([] ++ [⟨"Tools Count", false, "Server has no tools defined", "warning"⟩]) =
      exitCode [] :=
  (exit_code_law []).2 ⟨"Tools Count", false, "Server has no tools defined", "warning"⟩ rfl

/-- C3: a run is the concatenation of the four probes' appends, so all four
probes always execute, and an exception arising in a probe's transport or
correlator work is converted into exactly one appended result for that
probe instead of propagating. -/
theorem probe_exception_containment :
    (∀ b : ServerBehaviour,
        evaluate b = checkServerStarts b.startup ++ checkToolsList b.toolsList ++
          checkToolSchemas b.toolSchemas ++ checkResourcesList b.resourcesList) ∧
    (∀ e : PyExc,
        (checkServerStarts (.raised e)).length = 1 ∧
        (checkToolsList (.raised e)).length = 1 ∧
        (checkToolSchemas (.raised e)).length = 1 ∧
        (checkResourcesList (.raised e)).length = 1) ∧
    ((checkServerStarts .timedOut).length = 1 ∧
      (checkToolsList SendOutcome.timedOut).length = 1 ∧
      (checkToolSchemas SendOutcome.timedOut).length = 1 ∧
      (checkResourcesList SendOutcome.timedOut).length = 1) ∧
    (∀ lines e, correlateLoop lines = .error e →
        (checkToolsList (.completed lines)).length = 1 ∧
        (checkToolSchemas (.completed lines)).length = 1 ∧
        (checkResourcesList (.completed lines)).length = 1) := by
  refine ⟨?_, ?_, ?_, ?_⟩
  · intro b; simp [evaluate]
  · intro e; exact ⟨rfl, rfl, rfl, rfl⟩
  · exact ⟨rfl, rfl, rfl, rfl⟩
  · intro lines e h
    refine ⟨?_, ?_, ?_⟩
    · simp [checkToolsList, toolsListBody, sendRequest, h]
    · simp [checkToolSchemas, toolSchemasBody, sendRequest, h]
    · simp [checkResourcesList, resourcesBody, sendRequest, h]

/-- Witness for C3 on a buffer whose only line is the non-object JSON
value 0, making the correlator raise inside each probe. -/
theorem probe_exception_containment_witness :
    (checkToolsList (.completed [ParsedLine.value (.int 0)])).length = 1 ∧
    (checkToolSchemas (.completed [ParsedLine.value (.int 0)])).length = 1 ∧
    (checkResourcesList (.completed [ParsedLine.value (.int 0)])).length = 1 :=
  probe_exception_containment.2.2.2 [ParsedLine.value (.int 0)]
    (PyExc.attributeError "int" "get") rfl

/-- C4: the Server Startup probe appends a passed/info result when the
process exits 0 or produced stdout, a failed/error result whose message
carries the captured stderr when stdout is empty and the exit status is
nonzero, and a failed/error result whose message contains the words timed
out when the 10-second wait expires. -/
theorem server_startup_classification :
    (∀ (rc : Int) (out err : String), rc = 0 ∨ out ≠ "" →
        checkServerStarts (.completed rc out err) =
          [⟨"Server Startup", true, "Server starts successfully", "info"⟩]) ∧
    (∀ (rc : Int) (out err : String), rc ≠ 0 → out = "" →
        checkServerStarts (.completed rc out err) =
          [⟨"Server Startup", false, "Server failed to start: " ++ err, "error"⟩]) ∧
    (checkServerStarts .timedOut =
        [⟨"Server Startup", false, "Server startup timed out", "error"⟩] ∧
      "Server startup timed out" = "Server startup " ++ "timed out") := by
  refine ⟨?_, ?_, rfl, rfl⟩
  · intro rc out err h
    have hc : (rc == 0 || decide (out ≠ "")) = true := by
      rcases h with h | h <;> simp [h]
    simp only [checkServerStarts]
    rw [if_pos hc]
  · intro rc out err h1 h2
    have hc : ¬((rc == 0 || decide (out ≠ "")) = true) := by simp [h1, h2]
    simp only [checkServerStarts]
    rw [if_neg hc]

/-- Witness for C4 at exit status 0 with empty stdout, and at exit
status 1 with empty stdout and stderr text boom. -/
theorem server_startup_classification_witness :
    checkServerStarts (.completed 0 "" "") =
      [⟨"Server Startup", true, "Server starts successfully", "info"⟩] ∧
    checkServerStarts (.completed 1 "" "boom") =
      [⟨"Server Startup", false, "Server failed to start: " ++ "boom", "error"⟩] :=
  ⟨server_startup_classification.1 0 "" "" (Or.inl rfl),
   server_startup_classification.2.1 1 "" "boom" (by decide) rfl⟩

/-- C5: when the tools/list exchange yields a result containing an empty
tools array, the probe appends the passed/info Tools List result with
message Found 0 tool(s) and then the failed/warning Tools Count result, in
that order, and the run still exits 0 when no error-severity failed result
exists. -/
theorem zero_tools_warning (b : ServerBehaviour)
    (h : sendRequest b.toolsList = .ok (.dict [("tools", .list [])])) :
    checkToolsList b.toolsList =
      [⟨"Tools List", true, "Found 0 tool(s)", "info"⟩,
       ⟨"Tools Count", false, "Server has no tools defined", "warning"⟩] ∧
    ((∀ r ∈ evaluate b, ¬(r.severity = "error" ∧ r.passed = false)) →
      exitCode (evaluate b) = 0) := by
  constructor
  · have hbody : toolsListBody b.toolsList = .ok
        [⟨"Tools List", true, "Found 0 tool(s)", "info"⟩,
         ⟨"Tools Count", false, "Server has no tools defined", "warning"⟩] := by
      unfold toolsListBody
      rw [h]
      rfl
    simp [checkToolsList, hbody]
  · intro hall
    exact (exitCode_eq_zero (evaluate b)).mpr hall

/-- Witness for C5: a run whose tools/list exchange returns an empty tools
array and whose other probes stay benign exits with code 0. -/
theorem zero_tools_warning_witness :
    exitCode (evaluate (ServerBehaviour.mk (.completed 0 "ok" "")
      (.completed [ParsedLine.value (.dict [("id", .int 2),
        ("result", .dict [("tools", .list [])])])])
      (.completed [ParsedLine.empty]) (.completed [ParsedLine.empty]))) = 0 :=
  (zero_tools_warning (ServerBehaviour.mk (.completed 0 "ok" "")
      (.completed [ParsedLine.value (.dict [("id", .int 2),
        ("result", .dict [("tools", .list [])])])])
      (.completed [ParsedLine.empty]) (.completed [ParsedLine.empty])) rfl).2 (by decide)

theorem resourcesBody_ok_info (o : SendOutcome) (rs : List EvaluationResult)
    (h : resourcesBody o = .ok rs) :
    ∀ r ∈ rs, r.passed = true ∧ r.severity = "info" := by
  unfold resourcesBody at h
  repeat' split at h
  all_goals (try cases h)
  all_goals simp [List.forall_mem_cons]

/-- C6, counterexample: when the resources/list exchange completes but no
stdout line matches, the send returns None without raising and the
Resources List probe appends no result at all, so the probe does not
always append exactly one passed/info result. -/
theorem resources_probe_appends_nothing_on_none :
    sendRequest (.completed [ParsedLine.empty]) = .ok PyVal.none ∧
    checkResourcesList (.completed [ParsedLine.empty]) = [] :=
  ⟨rfl, rfl⟩

/-- C6, amended: every result the Resources List probe appends is
passed/info (so the probe never downgrades the run); it appends exactly
one such result when the exchange raises or returns a non-None result,
and appends nothing when the exchange completes with result None. -/
theorem resources_probe_leniency (o : SendOutcome) :
    (∀ r ∈ checkResourcesList o, r.passed = true ∧ r.severity = "info") ∧
    (sendRequest o = .ok PyVal.none → checkResourcesList o = []) ∧
    ((∃ e, sendRequest o = .error e) →
      checkResourcesList o =
        [⟨"Resources List", true, "Resources not implemented (optional)", "info"⟩]) ∧
    (∀ v, sendRequest o = .ok v → v.isNone = false →
      (checkResourcesList o).length = 1) := by
  refine ⟨?_, ?_, ?_, ?_⟩
  · intro r hr
    unfold checkResourcesList at hr
    split at hr
    · rename_i rs heq; exact resourcesBody_ok_info o rs heq r hr
    · simp at hr; subst hr; exact ⟨rfl, rfl⟩
  · intro h
    have hbody : resourcesBody o = .ok [] := by
      unfold resourcesBody; rw [h]; rfl
    simp [checkResourcesList, hbody]
  · rintro ⟨e, he⟩
    have hbody : resourcesBody o = .error e := by
      unfold resourcesBody; rw [he]
    simp [checkResourcesList, hbody]
  · intro v hv hnone
    cases hg : pyGetD v "resources" (.list []) with
    | error e =>
        have hbody : resourcesBody o = .error e := by
          unfold resourcesBody; rw [hv]; simp [hnone, hg]
        simp [checkResourcesList, hbody]
    | ok resources =>
        cases hl : pyLen resources with
        | error e2 =>
            have hbody : resourcesBody o = .error e2 := by
              unfold resourcesBody; rw [hv]; simp [hnone, hg, hl]
            simp [checkResourcesList, hbody]
        | ok n =>
            have hbody : resourcesBody o = .ok
                [⟨"Resources List", true, "Found " ++ toString n ++ " resource(s)", "info"⟩] := by
              unfold resourcesBody; rw [hv]; simp [hnone, hg, hl]
            simp [checkResourcesList, hbody]

/-- Witness for C6 at a timed-out exchange, whose TimeoutError is caught
and reported as the optional-capability info result. -/
theorem resources_probe_leniency_witness :
    checkResourcesList SendOutcome.timedOut =
      [⟨"Resources List", true, "Resources not implemented (optional)", "info"⟩] :=
  (resources_probe_leniency SendOutcome.timedOut).2.2.1 ⟨PyExc.timeoutError, rfl⟩

/-- C7, counterexample: on a tool entry with a name but neither description
nor inputSchema, the Tool Schemas probe appends two results, the missing
description warning and a passed/info result for the absent schema, so an
additional result for the absent schema is appended. -/
theorem schema_probe_appends_schema_info_result :
    checkToolSchemas (.completed [ParsedLine.value (.dict [("id", .int 2),
        ("result", .dict [("tools", .list [.dict [("name", .str "echo")]])])])]) =
      [⟨"Tool 'echo' Description", false, "Tool missing description", "warning"⟩,
       ⟨"Tool 'echo' Schema", true, "Tool has valid schema (no input required)", "info"⟩] ∧
    (checkToolSchemas (.completed [ParsedLine.value (.dict [("id", .int 2),
        ("result", .dict [("tools", .list [.dict [("name", .str "echo")]])])])])).length = 2 :=
  ⟨rfl, rfl⟩

/-- C7, amended: for that tool entry the probe yields exactly one
failed/warning result (the missing description) and exactly one additional
passed/info result for the absent schema, and no failed error result. -/
theorem schema_probe_missing_description_leniency :
    (warningsBucket (checkToolSchemas (.completed [ParsedLine.value (.dict [("id", .int 2),
        ("result", .dict [("tools", .list [.dict [("name", .str "echo")]])])])]))) =
      [⟨"Tool 'echo' Description", false, "Tool missing description", "warning"⟩] ∧
    (errorsBucket (checkToolSchemas (.completed [ParsedLine.value (.dict [("id", .int 2),
        ("result", .dict [("tools", .list [.dict [("name", .str "echo")]])])])]))) = [] ∧
    (passedBucket (checkToolSchemas (.completed [ParsedLine.value (.dict [("id", .int 2),
        ("result", .dict [("tools", .list [.dict [("name", .str "echo")]])])])]))) =
      [⟨"Tool 'echo' Schema", true, "Tool has valid schema (no input required)", "info"⟩] :=
  ⟨rfl, rfl, rfl⟩

/-- C9: on a timed-out wait neither the startup probe nor the send-request
helper performs a kill effect, so the child process is not terminated
before the wait returns; the timeout branch only appends the timed-out
error result. -/
theorem no_kill_on_timeout :
    Effect.kill ∉ serverStartsEffects .timedOut ∧
    Effect.kill ∉ sendRequestEffects SendOutcome.timedOut ∧
    serverStartsEffects .timedOut =
      [Effect.spawn, Effect.writeStdin,
       Effect.appendResult ⟨"Server Startup", false, "Server startup timed out", "error"⟩] := by
  refine ⟨?_, ?_, rfl⟩
  · decide
  · decide

/-- C10: every result appended during any run passed exactly when its
severity is info, and falls into exactly one of the report's three buckets
(passed, warnings, errors). -/
theorem result_invariant_and_buckets (b : ServerBehaviour) :
    ∀ r ∈ evaluate b,
      (r.passed = true ↔ r.severity = "info") ∧
      ((r ∈ passedBucket (evaluate b) ∧ r ∉ warningsBucket (evaluate b) ∧
          r ∉ errorsBucket (evaluate b)) ∨
       (r ∉ passedBucket (evaluate b) ∧ r ∈ warningsBucket (evaluate b) ∧
          r ∉ errorsBucket (evaluate b)) ∨
       (r ∉ passedBucket (evaluate b) ∧ r ∉ warningsBucket (evaluate b) ∧
          r ∈ errorsBucket (evaluate b))) := by
  intro r hr
  obtain ⟨hiff, hsev⟩ := resultInv_evaluate b r hr
  refine ⟨hiff, ?_⟩
  by_cases hp : r.passed = true
  · left
    refine ⟨List.mem_filter.mpr ⟨hr, by simp [hp]⟩, ?_, ?_⟩
    · intro hmem
      have hx := (List.mem_filter.mp hmem).2
      simp [hp] at hx
    · intro hmem
      have hx := (List.mem_filter.mp hmem).2
      simp [hp] at hx
  · have hp2 : r.passed = false := by simpa using hp
    have hsev2 : r.severity ≠ "info" := fun hs => hp (hiff.mpr hs)
    rcases hsev with hs | hs | hs
    · exact absurd hs hsev2
    · right; left
      refine ⟨?_, List.mem_filter.mpr ⟨hr, by simp [hp2, hs]⟩, ?_⟩
      · intro hmem
        have hx := (List.mem_filter.mp hmem).2
        simp [hp2] at hx
      · intro hmem
        have hx := (List.mem_filter.mp hmem).2
        simp [hs] at hx
    · right; right
      refine ⟨?_, ?_, List.mem_filter.mpr ⟨hr, by simp [hp2, hs]⟩⟩
      · intro hmem
        have hx := (List.mem_filter.mp hmem).2
        simp [hp2] at hx
      · intro hmem
        have hx := (List.mem_filter.mp hmem).2
        simp [hs] at hx

/-- Witness for C10 at the sample behaviour's startup result. -/
theorem result_invariant_and_buckets_witness :
    (sampleResult.passed = true ↔ sampleResult.severity = "info") ∧
    ((sampleResult ∈ passedBucket (evaluate sampleBehaviour) ∧
        sampleResult ∉ warningsBucket (evaluate sampleBehaviour) ∧
        sampleResult ∉ errorsBucket (evaluate sampleBehaviour)) ∨
     (sampleResult ∉ passedBucket (evaluate sampleBehaviour) ∧
        sampleResult ∈ warningsBucket (evaluate sampleBehaviour) ∧
        sampleResult ∉ errorsBucket (evaluate sampleBehaviour)) ∨
     (sampleResult ∉ passedBucket (evaluate sampleBehaviour) ∧
        sampleResult ∉ warningsBucket (evaluate sampleBehaviour) ∧
        sampleResult ∈ errorsBucket (evaluate sampleBehaviour))) :=
  result_invariant_and_buckets sampleBehaviour sampleResult (by decide)

end MCPEval
